import Mathlib

/-!
Verification of the workflow-step orchestration engine of the
database-as-a-service repository: the `BaseStep` `do`/`undo` contract, the
concrete steps `GrantNFSAccess` (restore_snapshot/grant_nfs_access.py) and
`DestroyAlarms`/`CreateAlarms` (upgrade/zabbix.py), the sequence/rollback
executor described by the specification, and the MongoDB driver's
status-error classification exercised by mongodb/tests/test_driver.py.

Python exceptions are modelled by `Except String`: a computation that may
raise returns `Except.error e` for a raised exception `e`, and a `try/except`
block is a `match` on that result.  A Python return value that may be `True`,
`False` or `None` is modelled by `PyValue`.  Each step execution also yields
the list of collaborator calls it made, in order, so that claims about which
calls happen and in which order are statable.
-/

/-- A Python return value as observed by the workflow engine: `None`, or a
boolean outcome. -/
inductive PyValue
  | none
  | bool (b : Bool)
deriving DecidableEq, Repr

/-! ## GrantNFSAccess (workflow/steps/util/restore_snapshot/grant_nfs_access.py) -/

/-- The error code `DBAAS_0021` imported by grant_nfs_access.py from
workflow.exceptions.error_codes. -/
inductive ErrorCode
  | DBAAS_0021
deriving DecidableEq, Repr

/-- The `workflow_dict['exceptions']` structure: the shared error log with its
`error_codes` and `traceback` lists. -/
structure Exceptions where
  error_codes : List ErrorCode
  traceback : List String
deriving DecidableEq, Repr

/-- The `databaseinfra` object as used by `GrantNFSAccess.do`: only its
`environment` attribute is read. -/
structure DatabaseInfra where
  environment : String
deriving DecidableEq, Repr

/-- One entry of `workflow_dict['hosts_and_exports']`: the keys read by
`GrantNFSAccess.do`. -/
structure HostAndExport where
  host : String
  new_export_id : String
deriving DecidableEq, Repr

/-- The `workflow_dict` keys touched by `GrantNFSAccess`.  `other_keys` stands
for every remaining key of the dict, which the step never touches; it lets the
additivity claim (no other key is modified) be stated. -/
structure WorkflowDict where
  databaseinfra : DatabaseInfra
  hosts_and_exports : List HostAndExport
  exceptions : Exceptions
  other_keys : List (String × String)
deriving DecidableEq, Repr

/-- One call to `NfsaasProvider.grant_access(environment=…, host=…,
export_id=…)`, with the keyword arguments it received. -/
structure GrantCall where
  environment : String
  host : String
  export_id : String
deriving DecidableEq, Repr

/-- The `for host_and_export in workflow_dict['hosts_and_exports']` loop of
`GrantNFSAccess.do`: issues one `grant_access` call per entry in order; the
first call that raises aborts the loop and the exception escapes to the
enclosing `try`.  Returns the outcome together with the calls made. -/
def grant_access_loop (grant : String → String → String → Except String Unit)
    (env : String) : List HostAndExport → Except String Unit × List GrantCall
  | [] => (Except.ok (), [])
  | he :: rest =>
    match grant env he.host he.new_export_id with
    | Except.error e => (Except.error e, [⟨env, he.host, he.new_export_id⟩])
    | Except.ok _ =>
      let (r, calls) := grant_access_loop grant env rest
      (r, ⟨env, he.host, he.new_export_id⟩ :: calls)

/-- `GrantNFSAccess.do(self, workflow_dict)`: runs the grant loop inside
`try`; on success returns `True`; on any exception appends `DBAAS_0021` to
`workflow_dict['exceptions']['error_codes']`, the `full_stack()` traceback to
`…['traceback']`, and returns `False`.  `grant` is the collaborator
(`NfsaasProvider.grant_access`) and `full_stack` the traceback string that
`util.full_stack()` would capture. -/
def GrantNFSAccess_do (grant : String → String → String → Except String Unit)
    (full_stack : String) (wd : WorkflowDict) :
    PyValue × WorkflowDict × List GrantCall :=
  match grant_access_loop grant wd.databaseinfra.environment wd.hosts_and_exports with
  | (Except.ok _, calls) => (PyValue.bool true, wd, calls)
  | (Except.error _, calls) =>
    (PyValue.bool false,
     { wd with exceptions :=
        { error_codes := wd.exceptions.error_codes ++ [ErrorCode.DBAAS_0021]
          traceback := wd.exceptions.traceback ++ [full_stack] } },
     calls)

/-- `GrantNFSAccess.undo(self, workflow_dict)`: its `try` body is
`return True`, which cannot raise, so the `except` branch is dead code: the
method always returns `True` and never touches the dict. -/
def GrantNFSAccess_undo (wd : WorkflowDict) : PyValue × WorkflowDict :=
  (PyValue.bool true, wd)

/-! ## ZabbixStep, DestroyAlarms, CreateAlarms (workflow/steps/util/upgrade/zabbix.py) -/

/-- A `Host` model object: `instance.hostname` is such an object and
`instance.hostname.hostname` is its name string. -/
structure Host where
  hostname : String
deriving DecidableEq, Repr

/-- The `Instance` attributes read by the zabbix steps: the `hostname` object
and the `dns` name. -/
structure Instance where
  hostname : Host
  dns : String
deriving DecidableEq, Repr

/-- One call made to the `zabbix_provider` collaborator, with its argument. -/
inductive ZCall
  | get_host_triggers (host : String)
  | delete_instance_monitors (host : String)
  | create_instance_basic_monitors (host : Host)
  | create_instance_monitors (inst : Instance)
deriving DecidableEq, Repr

/-- The behaviour of the `zabbix_provider` collaborator: for each method, the
result of calling it on a given argument (`Except.error` when the call
raises). -/
structure ZabbixProvider where
  get_host_triggers : String → Except String (List String)
  delete_instance_monitors : String → Except String Unit
  create_instance_basic_monitors : Host → Except String Unit
  create_instance_monitors : Instance → Except String Unit

/-- `ZabbixStep.undo(self)`: its body is `pass`, so it returns `None`. -/
def ZabbixStep_undo : PyValue := PyValue.none

/-- One half of `DestroyAlarms.do`: get the triggers for a name, and delete
that name's instance monitors when the trigger list is truthy (non-empty).
There is no `try/except`, so an exception from either provider call propagates. -/
def destroy_for_name (p : ZabbixProvider) (name : String) :
    Except String Unit × List ZCall :=
  match p.get_host_triggers name with
  | Except.error e => (Except.error e, [ZCall.get_host_triggers name])
  | Except.ok monitors =>
    if monitors.isEmpty then
      (Except.ok (), [ZCall.get_host_triggers name])
    else
      match p.delete_instance_monitors name with
      | Except.error e =>
        (Except.error e,
         [ZCall.get_host_triggers name, ZCall.delete_instance_monitors name])
      | Except.ok _ =>
        (Except.ok (),
         [ZCall.get_host_triggers name, ZCall.delete_instance_monitors name])

/-- `DestroyAlarms.do(self)`: runs `destroy_for_name` for
`instance.hostname.hostname` and then for `instance.dns`; no `try/except`, no
`return` statement (the Python value on success is `None`). -/
def DestroyAlarms_do (p : ZabbixProvider) (i : Instance) :
    Except String PyValue × List ZCall :=
  match destroy_for_name p i.hostname.hostname with
  | (Except.error e, calls) => (Except.error e, calls)
  | (Except.ok _, calls₁) =>
    match destroy_for_name p i.dns with
    | (Except.error e, calls₂) => (Except.error e, calls₁ ++ calls₂)
    | (Except.ok _, calls₂) => (Except.ok PyValue.none, calls₁ ++ calls₂)

/-- `CreateAlarms.do(self)`: first `DestroyAlarms(self.instance).do()`, then
`create_instance_basic_monitors(self.instance.hostname)`, then
`create_instance_monitors(self.instance)`; no `try/except`, no `return`. -/
def CreateAlarms_do (p : ZabbixProvider) (i : Instance) :
    Except String PyValue × List ZCall :=
  match DestroyAlarms_do p i with
  | (Except.error e, calls) => (Except.error e, calls)
  | (Except.ok _, calls) =>
    match p.create_instance_basic_monitors i.hostname with
    | Except.error e =>
      (Except.error e, calls ++ [ZCall.create_instance_basic_monitors i.hostname])
    | Except.ok _ =>
      match p.create_instance_monitors i with
      | Except.error e =>
        (Except.error e,
         calls ++ [ZCall.create_instance_basic_monitors i.hostname,
                   ZCall.create_instance_monitors i])
      | Except.ok _ =>
        (Except.ok PyValue.none,
         calls ++ [ZCall.create_instance_basic_monitors i.hostname,
                   ZCall.create_instance_monitors i])

/-- Whether a provider call is a deletion of instance monitors. -/
def ZCall.is_delete : ZCall → Bool
  | ZCall.delete_instance_monitors _ => true
  | _ => false

/-- Whether a provider call is a creation of monitors (basic or not). -/
def ZCall.is_create : ZCall → Bool
  | ZCall.create_instance_basic_monitors _ => true
  | ZCall.create_instance_monitors _ => true
  | _ => false

/-- The zabbix provider determined by a trigger table alone: no call raises,
`get_host_triggers` returns `trig name`, and the mutating calls succeed. -/
def ok_provider (trig : String → List String) : ZabbixProvider where
  get_host_triggers name := Except.ok (trig name)
  delete_instance_monitors _ := Except.ok ()
  create_instance_basic_monitors _ := Except.ok ()
  create_instance_monitors _ := Except.ok ()

/-- A provider on which every call raises, as when the zabbix service is
unreachable. -/
def raising_provider : ZabbixProvider where
  get_host_triggers _ := Except.error "zabbix unavailable"
  delete_instance_monitors _ := Except.error "zabbix unavailable"
  create_instance_basic_monitors _ := Except.error "zabbix unavailable"
  create_instance_monitors _ := Except.error "zabbix unavailable"

/-- A concrete instance fixture. -/
def inst₀ : Instance := { hostname := { hostname := "host01" }, dns := "db01" }

/-! ## The StepSequence / rollback executor (spec §4.2)

The executor itself is not under src/ (only the step classes are), so it is
modelled from the spec.  Steps are identified by their index `0..n-1`;
`doRes i` / `undoRes i` give the outcome of step `i`'s `do` / `undo`. -/

/-- An observable invocation the executor makes on step `i`. -/
inductive Event
  | doStep (i : Nat)
  | undoStep (i : Nat)
deriving DecidableEq, Repr

/-- Modelled from the spec: the forward pass of the StepSequence executor
(§4.2, steps 1–2) — missing from src/.  Invokes `do` on each step in order,
recording every step that executed `do` regardless of outcome; the first
failure short-circuits so no further step runs.  Returns the executed indices
in order and whether all succeeded. -/
def run_forward (doRes : Nat → Bool) : List Nat → List Nat × Bool
  | [] => ([], true)
  | i :: rest =>
    if doRes i then
      let (ex, ok) := run_forward doRes rest
      (i :: ex, ok)
    else ([i], false)

/-- Modelled from the spec: the rollback pass of the executor (§4.2, step 4)
— missing from src/.  Invokes `undo` on each given index in the given order;
a failing undo is recorded but does not stop the iteration.  Returns the undo
invocations made, in order, together with the indices whose undo failed. -/
def run_rollback (undoRes : Nat → Bool) : List Nat → List Event × List Nat
  | [] => ([], [])
  | i :: rest =>
    let (evs, errs) := run_rollback undoRes rest
    (Event.undoStep i :: evs, if undoRes i then errs else i :: errs)

/-- Modelled from the spec: one run of a sequence of `n` steps (§4.2) —
missing from src/.  Forward pass over steps `0..n-1` in order with
short-circuit on the first failure; on failure, rollback over the executed
steps in reverse order.  Returns the chronological trace of `do` and `undo`
invocations. -/
def run_sequence (doRes undoRes : Nat → Bool) (n : Nat) : List Event :=
  match run_forward doRes (List.range n) with
  | (ex, true) => ex.map Event.doStep
  | (ex, false) => ex.map Event.doStep ++ (run_rollback undoRes ex.reverse).1

/-! ## MongoDB `check_status` error classification

The driver's `check_status` is not under src/ (only its tests in
mongodb/tests/test_driver.py are), so it is modelled from the spec (§8
Scenario 4) and the behaviour the tests assert. -/

/-- Whether `pat` occurs as a substring of `s` (Python's `in` on `str`),
checked position by position. -/
def has_substring_from (pat : List Char) : List Char → Bool
  | [] => pat.isEmpty
  | c :: rest => pat.isPrefixOf (c :: rest) || has_substring_from pat rest

/-- String-level substring containment. -/
def str_contains (s pat : String) : Bool :=
  has_substring_from pat.toList s.toList

/-- The `ErrorRunningScript` exception raised by `call_script` on script
failure, carrying the exit code and the captured output (as constructed in
the mongodb driver tests). -/
structure ErrorRunningScript where
  exit_code : Int
  stdout : String
deriving DecidableEq, Repr

/-- The errors `check_status` can raise after classification. -/
inductive DriverError
  | connectionError
  | authenticationError
  | errorRunningScript (exit_code : Int) (stdout : String)
deriving DecidableEq, Repr

/-- The connectivity-failure text pattern, per the test's expectation on
`"Error: couldn't connect to server …"`. -/
def connection_failure_pattern : String := "couldn't connect to server"

/-- The authentication-failure text pattern, per the test's expectation on
`"Error: 18 … errmsg: \"auth fails\" …"`. -/
def authentication_failure_pattern : String := "auth fails"

/-- Modelled from the spec: `MongoDB.check_status` (driver code not under
src/; only its tests are).  Runs the status script via `call_script`; when
the call raises `ErrorRunningScript`, classifies the failure by
pattern-matching the captured output text — the connectivity pattern maps to
`ConnectionError`, the authentication pattern to `AuthenticationError`,
independently of the exit code — and re-raises an unrecognized failure
unchanged. -/
def check_status (call_script : Except ErrorRunningScript String) :
    Except DriverError String :=
  match call_script with
  | Except.ok out => Except.ok out
  | Except.error e =>
    if str_contains e.stdout connection_failure_pattern then
      Except.error DriverError.connectionError
    else if str_contains e.stdout authentication_failure_pattern then
      Except.error DriverError.authenticationError
    else
      Except.error (DriverError.errorRunningScript e.exit_code e.stdout)

/-! ## Concrete fixtures -/

/-- A collaborator on which every `grant_access` call succeeds. -/
def grant_ok : String → String → String → Except String Unit :=
  fun _ _ _ => Except.ok ()

/-- A collaborator on which every `grant_access` call raises. -/
def grant_fail : String → String → String → Except String Unit :=
  fun _ _ _ => Except.error "nfs error"

/-- A concrete workflow_dict fixture with two host/export bindings and a
non-empty pre-existing error log. -/
def wd₀ : WorkflowDict where
  databaseinfra := { environment := "prod" }
  hosts_and_exports := [{ host := "10.0.0.1", new_export_id := "exp-1" },
                        { host := "10.0.0.2", new_export_id := "exp-2" }]
  exceptions := { error_codes := [], traceback := [] }
  other_keys := [("database", "db01")]

/-! ## Theorems: GrantNFSAccess -/

/-- When every `grant_access` call succeeds, the loop issues one call per
entry in list order and returns normally. -/
theorem grant_access_loop_all_ok (grant : String → String → String → Except String Unit)
    (env : String) (hes : List HostAndExport)
    (h : ∀ he ∈ hes, grant env he.host he.new_export_id = Except.ok ()) :
    grant_access_loop grant env hes =
      (Except.ok (), hes.map fun he => ⟨env, he.host, he.new_export_id⟩) := by
  induction hes with
  | nil => rfl
  | cons he rest ih =>
    have hhe := h he (by simp)
    have hrest := ih fun x hx => h x (by simp [hx])
    simp [grant_access_loop, hhe, hrest]

/-- C2: for every workflow_dict with the 'exceptions' structure, if a
`grant_access` call made by `GrantNFSAccess.do` raises, then `do` returns
`False`, appends exactly one `DBAAS_0021` to the error codes and exactly one
captured stack trace to the traceback list, and does not re-raise. -/
theorem grant_nfs_do_failure_appends_once
    (grant : String → String → String → Except String Unit)
    (full_stack : String) (wd : WorkflowDict) (e : String)
    (h : (grant_access_loop grant wd.databaseinfra.environment
            wd.hosts_and_exports).1 = Except.error e) :
    (GrantNFSAccess_do grant full_stack wd).1 = PyValue.bool false ∧
    (GrantNFSAccess_do grant full_stack wd).2.1.exceptions.error_codes =
      wd.exceptions.error_codes ++ [ErrorCode.DBAAS_0021] ∧
    (GrantNFSAccess_do grant full_stack wd).2.1.exceptions.traceback =
      wd.exceptions.traceback ++ [full_stack] := by
  unfold GrantNFSAccess_do
  cases hl : grant_access_loop grant wd.databaseinfra.environment wd.hosts_and_exports with
  | mk r calls =>
    rw [hl] at h
    cases r with
    | ok u => exact absurd h (by simp)
    | error e' => simp

/-- C2, witnessed: on a workflow_dict with two bindings and a collaborator
that raises, `do` returns `False` and appends exactly one code and one
traceback. -/
theorem grant_nfs_do_failure_appends_once_witness :
    (GrantNFSAccess_do grant_fail "trace0" wd₀).1 = PyValue.bool false ∧
    (GrantNFSAccess_do grant_fail "trace0" wd₀).2.1.exceptions.error_codes =
      wd₀.exceptions.error_codes ++ [ErrorCode.DBAAS_0021] ∧
    (GrantNFSAccess_do grant_fail "trace0" wd₀).2.1.exceptions.traceback =
      wd₀.exceptions.traceback ++ ["trace0"] :=
  grant_nfs_do_failure_appends_once grant_fail "trace0" wd₀ "nfs error" rfl

/-- C6: when no collaborator call fails, `GrantNFSAccess.do` calls
`grant_access` exactly once per entry of `hosts_and_exports`, in list order,
with the databaseinfra's environment and the entry's host and new_export_id,
and returns `True` with the dict (hence the error log) unchanged. -/
theorem grant_nfs_do_success_calls_in_order
    (grant : String → String → String → Except String Unit)
    (full_stack : String) (wd : WorkflowDict)
    (h : ∀ he ∈ wd.hosts_and_exports,
      grant wd.databaseinfra.environment he.host he.new_export_id = Except.ok ()) :
    GrantNFSAccess_do grant full_stack wd =
      (PyValue.bool true, wd,
       wd.hosts_and_exports.map fun he =>
         ⟨wd.databaseinfra.environment, he.host, he.new_export_id⟩) := by
  unfold GrantNFSAccess_do
  rw [grant_access_loop_all_ok _ _ _ h]

/-- C6, witnessed: on the two-binding fixture with a collaborator that never
fails, `do` issues the two calls in order and returns `True` with the dict
unchanged. -/
theorem grant_nfs_do_success_calls_in_order_witness :
    GrantNFSAccess_do grant_ok "trace0" wd₀ =
      (PyValue.bool true, wd₀,
       [{ environment := "prod", host := "10.0.0.1", export_id := "exp-1" },
        { environment := "prod", host := "10.0.0.2", export_id := "exp-2" }]) := by
  have h := grant_nfs_do_success_calls_in_order grant_ok "trace0" wd₀
    (fun he _ => rfl)
  simpa using h

/-- C7: the error log is append-only and the step's mutations are additive:
`GrantNFSAccess.do` either returns `True` leaving the dict untouched, or
returns `False` and its only mutation is appending one error code and one
traceback (every other key unchanged); `GrantNFSAccess.undo` never mutates
the dict at all. -/
theorem grant_nfs_mutations_additive
    (grant : String → String → String → Except String Unit)
    (full_stack : String) (wd : WorkflowDict) :
    (((GrantNFSAccess_do grant full_stack wd).1 = PyValue.bool true ∧
      (GrantNFSAccess_do grant full_stack wd).2.1 = wd) ∨
     ((GrantNFSAccess_do grant full_stack wd).1 = PyValue.bool false ∧
      (GrantNFSAccess_do grant full_stack wd).2.1 =
        { wd with exceptions :=
            { error_codes := wd.exceptions.error_codes ++ [ErrorCode.DBAAS_0021]
              traceback := wd.exceptions.traceback ++ [full_stack] } })) ∧
    (GrantNFSAccess_undo wd).2 = wd := by
  refine ⟨?_, rfl⟩
  unfold GrantNFSAccess_do
  cases hl : grant_access_loop grant wd.databaseinfra.environment wd.hosts_and_exports with
  | mk r calls =>
    cases r with
    | ok u => left; exact ⟨rfl, rfl⟩
    | error e => right; exact ⟨rfl, rfl⟩

/-- C8: for every workflow_dict — including one on which `do` never ran or
failed — `GrantNFSAccess.undo` returns `True` and appends nothing to the
error log (it leaves the whole dict unchanged). -/
theorem grant_nfs_undo_always_true (wd : WorkflowDict) :
    GrantNFSAccess_undo wd = (PyValue.bool true, wd) := rfl

/-! ## Theorems: exception boundary and outcome types (zabbix steps) -/

/-- `GrantNFSAccess.do` always returns a boolean: its `try/except` catches
every failure of the loop body. -/
theorem GrantNFSAccess_do_bool (grant : String → String → String → Except String Unit)
    (full_stack : String) (wd : WorkflowDict) :
    (GrantNFSAccess_do grant full_stack wd).1 = PyValue.bool true ∨
      (GrantNFSAccess_do grant full_stack wd).1 = PyValue.bool false := by
  unfold GrantNFSAccess_do
  cases hl : grant_access_loop grant wd.databaseinfra.environment wd.hosts_and_exports with
  | mk r calls =>
    cases r with
    | ok u => left; rfl
    | error e => right; rfl

/-- `DestroyAlarms.do` either returns `None` (Python's implicit return) or
propagates an exception; it never produces a boolean outcome. -/
theorem DestroyAlarms_do_none_or_raises (p : ZabbixProvider) (i : Instance) :
    (DestroyAlarms_do p i).1 = Except.ok PyValue.none ∨
      ∃ e, (DestroyAlarms_do p i).1 = Except.error e := by
  unfold DestroyAlarms_do
  cases h₁ : destroy_for_name p i.hostname.hostname with
  | mk r₁ c₁ =>
    cases r₁ with
    | error e => right; exact ⟨e, rfl⟩
    | ok u =>
      cases h₂ : destroy_for_name p i.dns with
      | mk r₂ c₂ =>
        cases r₂ with
        | error e => right; exact ⟨e, rfl⟩
        | ok v => left; rfl

/-- `CreateAlarms.do` either returns `None` or propagates an exception; it
never produces a boolean outcome. -/
theorem CreateAlarms_do_none_or_raises (p : ZabbixProvider) (i : Instance) :
    (CreateAlarms_do p i).1 = Except.ok PyValue.none ∨
      ∃ e, (CreateAlarms_do p i).1 = Except.error e := by
  unfold CreateAlarms_do
  cases h₁ : DestroyAlarms_do p i with
  | mk r₁ c₁ =>
    cases r₁ with
    | error e => right; exact ⟨e, rfl⟩
    | ok u =>
      cases h₂ : p.create_instance_basic_monitors i.hostname with
      | error e => right; exact ⟨e, rfl⟩
      | ok v =>
        cases h₃ : p.create_instance_monitors i with
        | error e => right; exact ⟨e, rfl⟩
        | ok w => left; rfl

/-- C1, counterexample: on a provider whose `get_host_triggers` raises,
`DestroyAlarms.do` propagates the raw exception to its caller instead of
converting it into the error log — the claimed step boundary does not exist
for the zabbix steps. -/
theorem destroy_alarms_do_propagates_exception :
    (DestroyAlarms_do raising_provider inst₀).1 =
      Except.error "zabbix unavailable" := rfl

/-- C1, amended: only `GrantNFSAccess` has the catching boundary — its `do`
always returns a boolean and its `undo` always returns `True`, so neither
ever propagates an exception; `DestroyAlarms.do` and `CreateAlarms.do` have
no `try/except` and propagate collaborator exceptions (shown on a provider
whose calls raise). -/
theorem exception_boundary_grant_only :
    (∀ grant full_stack wd,
      (GrantNFSAccess_do grant full_stack wd).1 = PyValue.bool true ∨
        (GrantNFSAccess_do grant full_stack wd).1 = PyValue.bool false) ∧
    (∀ wd, (GrantNFSAccess_undo wd).1 = PyValue.bool true) ∧
    (DestroyAlarms_do raising_provider inst₀).1 =
      Except.error "zabbix unavailable" ∧
    (CreateAlarms_do raising_provider inst₀).1 =
      Except.error "zabbix unavailable" :=
  ⟨GrantNFSAccess_do_bool, fun _ => rfl, rfl, rfl⟩

/-- C4, counterexample: `ZabbixStep.undo` (its body is `pass`) returns
`None`, which is neither `True` nor `False` — not a boolean-like outcome. -/
theorem zabbix_undo_returns_none :
    ZabbixStep_undo ≠ PyValue.bool true ∧ ZabbixStep_undo ≠ PyValue.bool false := by
  decide

/-- C4, amended: `GrantNFSAccess.do` and `GrantNFSAccess.undo` do return a
boolean outcome on every input, but the zabbix steps do not: `ZabbixStep.undo`
returns `None`, and `DestroyAlarms.do` and `CreateAlarms.do` each either
return `None` or propagate an exception — never a boolean. -/
theorem step_outcome_types :
    (∀ grant full_stack wd,
      (GrantNFSAccess_do grant full_stack wd).1 = PyValue.bool true ∨
        (GrantNFSAccess_do grant full_stack wd).1 = PyValue.bool false) ∧
    (∀ wd, (GrantNFSAccess_undo wd).1 = PyValue.bool true) ∧
    ZabbixStep_undo = PyValue.none ∧
    (∀ p i, (DestroyAlarms_do p i).1 = Except.ok PyValue.none ∨
      ∃ e, (DestroyAlarms_do p i).1 = Except.error e) ∧
    (∀ p i, (CreateAlarms_do p i).1 = Except.ok PyValue.none ∨
      ∃ e, (CreateAlarms_do p i).1 = Except.error e) :=
  ⟨GrantNFSAccess_do_bool, fun _ => rfl, rfl,
   DestroyAlarms_do_none_or_raises, CreateAlarms_do_none_or_raises⟩

/-! ## Theorems: DestroyAlarms / CreateAlarms call discipline -/

/-- On a non-raising provider, each half of `DestroyAlarms.do` gets the
triggers and deletes the monitors exactly when the trigger list is
non-empty. -/
theorem destroy_for_name_ok (trig : String → List String) (name : String) :
    destroy_for_name (ok_provider trig) name =
      (Except.ok (), ZCall.get_host_triggers name ::
        (if (trig name).isEmpty then []
         else [ZCall.delete_instance_monitors name])) := by
  unfold destroy_for_name ok_provider
  by_cases h : (trig name).isEmpty <;> simp [h]

/-- On a non-raising provider, `DestroyAlarms.do` succeeds with `None` and
its calls are: get triggers for the hostname, delete when non-empty, then the
same for the dns. -/
theorem DestroyAlarms_do_ok_provider (trig : String → List String) (i : Instance) :
    DestroyAlarms_do (ok_provider trig) i =
      (Except.ok PyValue.none,
       (ZCall.get_host_triggers i.hostname.hostname ::
         (if (trig i.hostname.hostname).isEmpty then []
          else [ZCall.delete_instance_monitors i.hostname.hostname])) ++
       (ZCall.get_host_triggers i.dns ::
         (if (trig i.dns).isEmpty then []
          else [ZCall.delete_instance_monitors i.dns]))) := by
  unfold DestroyAlarms_do
  rw [destroy_for_name_ok, destroy_for_name_ok]

/-- C5: on every non-raising provider state, `DestroyAlarms.do` calls
`delete_instance_monitors` for the instance's hostname iff
`get_host_triggers` returns a non-empty list for it, likewise for the dns;
when no triggers exist for either name it performs no deletion and completes
successfully. -/
theorem destroy_alarms_deletes_iff_triggers (trig : String → List String) (i : Instance) :
    (ZCall.delete_instance_monitors i.hostname.hostname ∈
        (DestroyAlarms_do (ok_provider trig) i).2 ↔ trig i.hostname.hostname ≠ []) ∧
    (ZCall.delete_instance_monitors i.dns ∈
        (DestroyAlarms_do (ok_provider trig) i).2 ↔ trig i.dns ≠ []) ∧
    (trig i.hostname.hostname = [] → trig i.dns = [] →
      ((DestroyAlarms_do (ok_provider trig) i).2.all fun c => !c.is_delete) = true ∧
      (DestroyAlarms_do (ok_provider trig) i).1 = Except.ok PyValue.none) := by
  rw [DestroyAlarms_do_ok_provider]
  by_cases h₁ : trig i.hostname.hostname = [] <;> by_cases h₂ : trig i.dns = []
  · simp [h₁, h₂, ZCall.is_delete]
  · have hne : i.hostname.hostname ≠ i.dns := fun hEq => h₂ (hEq ▸ h₁)
    simp [h₁, h₂, hne, ZCall.is_delete]
  · have hne : i.hostname.hostname ≠ i.dns := fun hEq => h₁ (hEq ▸ h₂)
    simp [h₁, h₂, hne, hne.symm, ZCall.is_delete]
  · simp [h₁, h₂, ZCall.is_delete]

/-- The calls `destroy_for_name` makes never include a creation. -/
theorem destroy_for_name_no_create (p : ZabbixProvider) (name : String) :
    (((destroy_for_name p name).2).all fun c => !c.is_create) = true := by
  unfold destroy_for_name
  cases h : p.get_host_triggers name with
  | error e => simp [ZCall.is_create]
  | ok monitors =>
    by_cases hm : monitors.isEmpty
    · simp [hm, ZCall.is_create]
    · cases hd : p.delete_instance_monitors name with
      | error e => simp [hm, ZCall.is_create]
      | ok u => simp [hm, ZCall.is_create]

/-- The calls `DestroyAlarms.do` makes never include a creation. -/
theorem DestroyAlarms_no_create (p : ZabbixProvider) (i : Instance) :
    (((DestroyAlarms_do p i).2).all fun c => !c.is_create) = true := by
  unfold DestroyAlarms_do
  cases h₁ : destroy_for_name p i.hostname.hostname with
  | mk r₁ c₁ =>
    have n₁ := destroy_for_name_no_create p i.hostname.hostname
    rw [h₁] at n₁
    cases r₁ with
    | error e => simpa using n₁
    | ok u =>
      cases h₂ : destroy_for_name p i.dns with
      | mk r₂ c₂ =>
        have n₂ := destroy_for_name_no_create p i.dns
        rw [h₂] at n₂
        cases r₂ with
        | error e => simp_all [List.all_append]
        | ok v => simp_all [List.all_append]

/-- C10: for every provider state and instance, `CreateAlarms.do` first runs
`DestroyAlarms.do` on the same instance — the destroy trace is a prefix of
the create trace — and everything after it is creation only, while the
destroy trace contains no creation: every deletion of pre-existing monitors
precedes every creation. -/
theorem create_alarms_destroy_before_create (p : ZabbixProvider) (i : Instance) :
    ∃ rest, (CreateAlarms_do p i).2 = (DestroyAlarms_do p i).2 ++ rest ∧
      (rest.all fun c => !c.is_delete) = true ∧
      (((DestroyAlarms_do p i).2).all fun c => !c.is_create) = true := by
  have hnc := DestroyAlarms_no_create p i
  unfold CreateAlarms_do
  cases h₁ : DestroyAlarms_do p i with
  | mk r₁ c₁ =>
    rw [h₁] at hnc
    cases r₁ with
    | error e => exact ⟨[], by simp, rfl, by simpa using hnc⟩
    | ok u =>
      cases h₂ : p.create_instance_basic_monitors i.hostname with
      | error e =>
        exact ⟨[ZCall.create_instance_basic_monitors i.hostname], rfl,
               by simp [ZCall.is_delete], by simpa using hnc⟩
      | ok v =>
        cases h₃ : p.create_instance_monitors i with
        | error e =>
          exact ⟨[ZCall.create_instance_basic_monitors i.hostname,
                  ZCall.create_instance_monitors i], rfl,
                 by simp [ZCall.is_delete], by simpa using hnc⟩
        | ok w =>
          exact ⟨[ZCall.create_instance_basic_monitors i.hostname,
                  ZCall.create_instance_monitors i], rfl,
                 by simp [ZCall.is_delete], by simpa using hnc⟩

/-! ## Theorems: the sequence / rollback executor -/

/-- Whether an executor event is an `undo` invocation. -/
def Event.is_undo : Event → Bool
  | Event.undoStep _ => true
  | _ => false

/-- Whether an executor event is a `do` invocation. -/
def Event.is_do : Event → Bool
  | Event.doStep _ => true
  | _ => false

/-- Forward pass over steps that all succeed: every step executes, in
order. -/
theorem run_forward_all_ok (doRes : Nat → Bool) (l : List Nat)
    (h : ∀ i ∈ l, doRes i = true) :
    run_forward doRes l = (l, true) := by
  induction l with
  | nil => rfl
  | cons i rest ih =>
    simp [run_forward, h i (by simp), ih fun x hx => h x (by simp [hx])]

/-- Forward pass where the steps before `k` succeed and `k` fails: exactly
the steps up to and including `k` execute, and the pass reports failure. -/
theorem run_forward_first_fail (doRes : Nat → Bool) (l₁ : List Nat) (k : Nat)
    (l₂ : List Nat) (h₁ : ∀ i ∈ l₁, doRes i = true) (hk : doRes k = false) :
    run_forward doRes (l₁ ++ k :: l₂) = (l₁ ++ [k], false) := by
  induction l₁ with
  | nil => simp [run_forward, hk]
  | cons i rest ih =>
    simp [run_forward, h₁ i (by simp),
          ih fun x hx => h₁ x (by simp [hx])]

/-- The rollback pass invokes `undo` once per given index, in the given
order, regardless of which undos fail. -/
theorem run_rollback_events (undoRes : Nat → Bool) (l : List Nat) :
    (run_rollback undoRes l).1 = l.map Event.undoStep := by
  induction l with
  | nil => rfl
  | cons i rest ih => simp [run_rollback, ih]

/-- Shape of a failing run: when the first failure is at step `k < n`, the
trace is `do 0, …, do k` followed by `undo k, undo (k-1), …, undo 0`. -/
theorem run_sequence_first_fail (doRes undoRes : Nat → Bool) (n k : Nat)
    (hk : k < n) (hfail : doRes k = false) (hprev : ∀ i, i < k → doRes i = true) :
    run_sequence doRes undoRes n =
      (List.range (k + 1)).map Event.doStep ++
        ((List.range (k + 1)).reverse).map Event.undoStep := by
  have hsplit : List.range n =
      (List.range k ++ [k]) ++ (List.range (n - (k + 1))).map ((k + 1) + ·) := by
    rw [← List.range_succ k, ← List.range_add]
    congr 1
    omega
  have hfwd : run_forward doRes (List.range n) = (List.range k ++ [k], false) := by
    rw [hsplit, List.append_assoc, List.singleton_append]
    exact run_forward_first_fail doRes (List.range k) k _
      (fun i hi => hprev i (List.mem_range.mp hi)) hfail
  unfold run_sequence
  rw [hfwd]
  show List.map Event.doStep (List.range k ++ [k]) ++
      (run_rollback undoRes (List.range k ++ [k]).reverse).1 = _
  have hr : List.range k ++ [k] = List.range (k + 1) := (List.range_succ k).symm
  rw [run_rollback_events, hr]

/-- C3, spec-modelled: in a run of `n` steps whose first failure is step `k`,
`do` runs exactly once on each of steps `0..k` and never on steps beyond `k`;
`undo` runs exactly once on each step that executed `do` (steps `0..k`,
including the failing one) and on no other, in strictly descending order
starting from `k`; and — whatever the undo outcomes are — the number of undo
invocations equals the number of steps that executed `do`. -/
theorem sequence_rollback_contract (doRes undoRes : Nat → Bool) (n k : Nat)
    (hk : k < n) (hfail : doRes k = false) (hprev : ∀ i, i < k → doRes i = true) :
    (∀ i, i ≤ k → (run_sequence doRes undoRes n).count (Event.doStep i) = 1) ∧
    (∀ i, k < i → (run_sequence doRes undoRes n).count (Event.doStep i) = 0) ∧
    (∀ i, i ≤ k → (run_sequence doRes undoRes n).count (Event.undoStep i) = 1) ∧
    (∀ i, k < i → (run_sequence doRes undoRes n).count (Event.undoStep i) = 0) ∧
    (run_sequence doRes undoRes n).filter Event.is_undo =
      ((List.range (k + 1)).reverse).map Event.undoStep ∧
    (run_sequence doRes undoRes n).countP Event.is_undo =
      (run_sequence doRes undoRes n).countP Event.is_do := by
  rw [run_sequence_first_fail doRes undoRes n k hk hfail hprev]
  have hinjdo : Function.Injective Event.doStep := fun a b h => by
    cases h; rfl
  have hinjundo : Function.Injective Event.undoStep := fun a b h => by
    cases h; rfl
  have hcount : ∀ i, (List.range (k + 1)).count i = if i ≤ k then 1 else 0 := by
    intro i
    by_cases h : i ≤ k
    · rw [if_pos h]
      exact List.count_eq_one_of_mem (List.nodup_range (k + 1))
        (List.mem_range.mpr (by omega))
    · rw [if_neg h]
      exact List.count_eq_zero_of_not_mem
        (fun hm => h (by have := List.mem_range.mp hm; omega))
  have hdo_notin : ∀ i, (Event.doStep i) ∉
      ((List.range (k + 1)).reverse).map Event.undoStep := by
    intro i hm
    rcases List.mem_map.mp hm with ⟨a, _, ha⟩
    exact Event.noConfusion ha
  have hundo_notin : ∀ i, (Event.undoStep i) ∉
      (List.range (k + 1)).map Event.doStep := by
    intro i hm
    rcases List.mem_map.mp hm with ⟨a, _, ha⟩
    exact Event.noConfusion ha
  refine ⟨?_, ?_, ?_, ?_, ?_, ?_⟩
  · intro i hi
    rw [List.count_append, List.count_map_of_injective _ _ hinjdo,
        List.count_eq_zero_of_not_mem (hdo_notin i), hcount, if_pos hi]
  · intro i hi
    rw [List.count_append, List.count_map_of_injective _ _ hinjdo,
        List.count_eq_zero_of_not_mem (hdo_notin i), hcount,
        if_neg (by omega)]
  · intro i hi
    rw [List.count_append, List.count_eq_zero_of_not_mem (hundo_notin i),
        List.map_reverse, List.count_reverse,
        List.count_map_of_injective _ _ hinjundo, hcount, if_pos hi]
  · intro i hi
    rw [List.count_append, List.count_eq_zero_of_not_mem (hundo_notin i),
        List.map_reverse, List.count_reverse,
        List.count_map_of_injective _ _ hinjundo, hcount, if_neg (by omega)]
  · rw [List.filter_append]
    have h₁ : ((List.range (k + 1)).map Event.doStep).filter Event.is_undo = [] := by
      rw [List.filter_eq_nil_iff]
      intro a ha
      rcases List.mem_map.mp ha with ⟨b, _, hb⟩
      subst hb
      simp [Event.is_undo]
    have h₂ : (((List.range (k + 1)).reverse).map Event.undoStep).filter Event.is_undo =
        ((List.range (k + 1)).reverse).map Event.undoStep := by
      rw [List.filter_eq_self]
      intro a ha
      rcases List.mem_map.mp ha with ⟨b, _, hb⟩
      subst hb
      simp [Event.is_undo]
    rw [h₁, h₂, List.nil_append]
  · have hu : (Event.is_undo ∘ Event.doStep) = fun _ : Nat => false := rfl
    have hd : (Event.is_do ∘ Event.doStep) = fun _ : Nat => true := rfl
    have hu' : (Event.is_undo ∘ Event.undoStep) = fun _ : Nat => true := rfl
    have hd' : (Event.is_do ∘ Event.undoStep) = fun _ : Nat => false := rfl
    simp only [List.countP_append, List.countP_map]
    rw [hu, hd, hu', hd']
    simp [List.countP_true, List.countP_false]

/-- A do-outcome table on which step 2 is the first (and only) failure. -/
def d₄ : Nat → Bool := fun i => decide (i ≠ 2)

/-- An undo-outcome table on which step 1's undo fails. -/
def u₄ : Nat → Bool := fun i => decide (i ≠ 1)

/-- C3, witnessed: four steps where step 2 fails and step 1's undo also
fails — `do` runs once on steps 0..2 and never on step 3; `undo` runs once
each on 2, 1, 0 in that order; undo count equals do count. -/
theorem sequence_rollback_contract_witness :
    (∀ i, i ≤ 2 → (run_sequence d₄ u₄ 4).count (Event.doStep i) = 1) ∧
    (∀ i, 2 < i → (run_sequence d₄ u₄ 4).count (Event.doStep i) = 0) ∧
    (∀ i, i ≤ 2 → (run_sequence d₄ u₄ 4).count (Event.undoStep i) = 1) ∧
    (∀ i, 2 < i → (run_sequence d₄ u₄ 4).count (Event.undoStep i) = 0) ∧
    (run_sequence d₄ u₄ 4).filter Event.is_undo =
      ((List.range 3).reverse).map Event.undoStep ∧
    (run_sequence d₄ u₄ 4).countP Event.is_undo =
      (run_sequence d₄ u₄ 4).countP Event.is_do :=
  sequence_rollback_contract d₄ u₄ 4 2 (by decide) (by decide) (by decide)

/-! ## Theorems: MongoDB `check_status` classification -/

/-- C9: `check_status` classifies a script failure by the returned text, not
by the exit code alone — for any exit code, output containing the
connectivity-failure pattern raises `ConnectionError`, and for the same exit
code output containing the authentication-failure pattern (and not the
connectivity one) raises `AuthenticationError`. -/
theorem check_status_pattern_classification (code : Int) (conn_out auth_out : String)
    (hconn : str_contains conn_out connection_failure_pattern = true)
    (hauth : str_contains auth_out authentication_failure_pattern = true)
    (hnotc : str_contains auth_out connection_failure_pattern = false) :
    check_status (Except.error { exit_code := code, stdout := conn_out }) =
      Except.error DriverError.connectionError ∧
    check_status (Except.error { exit_code := code, stdout := auth_out }) =
      Except.error DriverError.authenticationError := by
  constructor
  · simp [check_status, hconn]
  · simp [check_status, hnotc, hauth]

/-- The stdout of the failing status script in the connection-error test. -/
def conn_stdout : String :=
  "Error: couldn't connect to server xxx:yyy at src/mongo/shell/mongo.js:147"

/-- The stdout of the failing status script in the authentication-error
test. -/
def auth_stdout : String :=
  "Error: 18 \x7b code: 18, ok: 0.0, errmsg: \"auth fails\" \x7d"

/-- C9, witnessed at exit code 1 and the two test outputs. -/
theorem check_status_pattern_classification_witness :
    check_status (Except.error { exit_code := 1, stdout := conn_stdout }) =
      Except.error DriverError.connectionError ∧
    check_status (Except.error { exit_code := 1, stdout := auth_stdout }) =
      Except.error DriverError.authenticationError :=
  check_status_pattern_classification 1 conn_stdout auth_stdout
    (by decide) (by decide) (by decide)
